import Mathlib

/-!
# Verification of the TexPack layout engine (`src/layouts.py`)

A shallow embedding of the rectangle bin-packing core: the `Rect`/`Sprite`
primitive and the `Sheet` context (modelled from the spec, since the
`spritesheet` module is not part of the sources), the `Shelf`, `Stack` and
`MaxRects` layout strategies, and the shared driver `Layout.add`.

Python mutates sprites in place and returns the same objects; the embedding
is purely functional, so sprites carry an identity tag `sid` and every
operation that mutates a sprite returns the updated value.  Layout state is
threaded explicitly.  Machine integers are `Nat` for coordinates and sizes
(they are never negative in the source) and `Int` for scores (Shelf scores
can go negative).
-/

namespace TexPack

/-- Modelled from the spec: the `Rect` primitive of the missing `spritesheet`
module (§3): integer coordinates `(x, y, w, h)` with derived `right = x+w`
and `bottom = y+h`, plus the sprite orientation flag `rotated` and the
`rotate()` operation (§3 "Sprite: a Rect plus a boolean rotated").  The
extra field `sid` models Python object identity of sprites (the driver
returns the very objects it was given, mutated). -/
structure Rect where
  w : Nat
  h : Nat
  x : Nat := 0
  y : Nat := 0
  rotated : Bool := false
  sid : Nat := 0
deriving DecidableEq, Repr

namespace Rect

/-- Modelled from the spec (§3): `intersects(a,b) ↔ a.x < b.right ∧ b.x <
a.right ∧ a.y < b.bottom ∧ b.y < a.bottom`. -/
def intersects (a b : Rect) : Bool :=
  decide (a.x < b.x + b.w) && decide (b.x < a.x + a.w) &&
  decide (a.y < b.y + b.h) && decide (b.y < a.y + a.h)

/-- Modelled from the spec (§3): `contains(a,b)` ↔ all four corners of `b`
lie in the closed region of `a`. -/
def contains (a b : Rect) : Bool :=
  decide (a.x ≤ b.x) && decide (a.y ≤ b.y) &&
  decide (b.x + b.w ≤ a.x + a.w) && decide (b.y + b.h ≤ a.y + a.h)

/-- Modelled from the spec (§3): `rotate()` swaps `w ↔ h` and flips
`rotated`. -/
def rotate (r : Rect) : Rect :=
  { r with w := r.h, h := r.w, rotated := !r.rotated }

end Rect

/-- Modelled from the spec: the sheet context of the missing `spritesheet`
module (§3): bin size `(maxW, maxH)`, the rotation permission, and the
validation predicate `check(r)` ("validates a placement against bin bounds
(and any user-supplied exclusion)"). -/
structure Sheet where
  w : Nat
  h : Nat
  rotate : Bool
  check : Rect → Bool

/-- Modelled from the spec (§3, §6): the default bounds-only `check`
predicate, used to instantiate concrete scenarios. -/
def boundsCheck (maxw maxh : Nat) (r : Rect) : Bool :=
  decide (r.x + r.w ≤ maxw) && decide (r.y + r.h ≤ maxh)

/-! ## The shared driver `Layout.add` (src/layouts.py:39-50)

`get_best` may mutate the sprites of the working list while scoring (both
Shelf and MaxRects rotate sprites in place), so in the embedding it returns
the updated list together with the chosen `(index, position, rotation)`.
`place` returns the updated layout state, the updated (positioned) sprite,
and its boolean result.  The fuel is the initial length of the working
list; every loop iteration pops exactly one sprite, so the fuel is never
exhausted when starting from `layoutAdd`.  The last component of the result
counts the successful loop iterations. -/

def addAux {σ π : Type} (getBest : σ → List Rect → Option (Nat × π × Bool) × List Rect)
    (placeF : σ → Rect → π → Bool → σ × Rect × Bool) :
    Nat → σ → List Rect → List Rect × List Rect × σ × Nat
  | 0, st, remain => ([], remain, st, 0)
  | Nat.succ fuel, st, remain =>
    if remain.isEmpty then ([], remain, st, 0)
    else
      match getBest st remain with
      | (none, remain1) => ([], remain1, st, 0)
      | (some (i, pos, rot), remain1) =>
        match remain1.get? i with
        | none => ([], remain1, st, 0)
        | some spr =>
          let r := placeF st spr pos rot
          if r.2.2 then
            let res := addAux getBest placeF fuel r.1 (remain1.eraseIdx i)
            (r.2.1 :: res.1, res.2.1, res.2.2.1, res.2.2.2 + 1)
          else ([], remain1.set i r.2.1, r.1, 0)

/-- `Layout.add` (src/layouts.py:39-50): returns `(placed, remain, state,
iterations)`. -/
def layoutAdd {σ π : Type} (getBest : σ → List Rect → Option (Nat × π × Bool) × List Rect)
    (placeF : σ → Rect → π → Bool → σ × Rect × Bool) (st : σ) (sprites : List Rect) :
    List Rect × List Rect × σ × Nat :=
  addAux getBest placeF sprites.length st sprites

/-! ## ShelfLayout (src/layouts.py:57-135) -/

/-- `ShelfLayout.Shelf` (src/layouts.py:64-69). -/
structure Shelf where
  start : Nat
  size : Nat := 0
  max : Nat := 0
  rects : List Rect := []
deriving DecidableEq, Repr

/-- `Shelf.place` (src/layouts.py:71-78): set the rect position, append it,
grow `size` by its width, and raise `max` to its height. -/
def Shelf.place (s : Shelf) (r : Rect) : Shelf × Rect :=
  let r1 := { r with x := s.size, y := s.start }
  ({ s with rects := s.rects ++ [r1], size := s.size + r1.w,
            max := if s.max < r1.h then r1.h else s.max }, r1)

/-- `ShelfLayout` state (src/layouts.py:80-82). -/
structure ShelfState where
  size : Nat := 0
  shelves : List Shelf := []
deriving DecidableEq, Repr

/-- `ShelfLayout.get_best` returns a shelf object: either one of the
existing shelves (identified here by its index in `shelves`, modelling
Python object identity) or a freshly synthesized `Shelf(self.size)`
carrying its `start`. -/
inductive ShelfChoice where
  | existing (idx : Nat)
  | fresh (start : Nat)
deriving DecidableEq, Repr

/-- The shelf-scanning loop of `ShelfLayout.get_best` (src/layouts.py:96-103):
`j` is the index of the head of `shelves` in the full shelf list; the
in-place rotation of line 97-98 is threaded through `spr`, and `bs` is the
running `best_shelf` as `(choice, score)`. -/
def shelfScan (sheet : Sheet) : List Shelf → Nat → Rect → Option (ShelfChoice × Int) →
    Rect × Option (ShelfChoice × Int)
  | [], _, spr, bs => (spr, bs)
  | shelf :: rest, j, spr, bs =>
    let spr1 := if sheet.rotate && decide (spr.h < spr.w) && decide (spr.w ≤ shelf.max)
                then spr.rotate else spr
    let bs1 :=
      if decide (shelf.size + spr1.w ≤ sheet.w) && decide (spr1.h ≤ shelf.max) then
        let score : Int := ((sheet.w : Int) - shelf.size - spr1.w) * shelf.max
                           + (spr1.w : Int) * ((shelf.max : Int) - spr1.h)
        match bs with
        | none => some (ShelfChoice.existing j, score)
        | some (c, s) => if score < s then some (ShelfChoice.existing j, score) else some (c, s)
      else bs
    shelfScan sheet rest (j + 1) spr1 bs1

/-- The per-sprite body of `ShelfLayout.get_best` (src/layouts.py:90-116):
the returned option is the candidate `(shelf, score)` (`none` means the
Python `continue`), paired with the sprite as mutated by scoring.  Note the
mutations persist even when the sprite is skipped. -/
def shelfCandidate (sheet : Sheet) (st : ShelfState) (spr : Rect) :
    Option (ShelfChoice × Int) × Rect :=
  if decide (sheet.w < spr.w) || decide (sheet.h < spr.h) then (none, spr)
  else
    let sb := shelfScan sheet st.shelves 0 spr none
    match sb.2 with
    | some c => (some c, sb.1)
    | none =>
      let spr2 := if sheet.rotate && decide (sb.1.w < sb.1.h) then sb.1.rotate else sb.1
      if !st.shelves.isEmpty && decide (sheet.h < st.size + spr2.h) then (none, spr2)
      else (some (ShelfChoice.fresh st.size, ((sheet.w : Int) - spr2.w) * spr2.h), spr2)

/-- The sprite loop of `ShelfLayout.get_best` (src/layouts.py:87-122):
tracks the globally best `(i, choice, rotated)` under strictly smaller
score, and rebuilds the sprite list with the scoring mutations applied. -/
def shelfBestLoop (sheet : Sheet) (st : ShelfState) :
    List Rect → Nat → Option (Nat × ShelfChoice × Bool) → Option Int →
    Option (Nat × ShelfChoice × Bool) × List Rect
  | [], _, best, _ => (best, [])
  | spr :: rest, i, best, bestScore =>
    let cs := shelfCandidate sheet st spr
    let bb : Option (Nat × ShelfChoice × Bool) × Option Int :=
      match cs.1 with
      | none => (best, bestScore)
      | some (c, s) =>
        match bestScore with
        | none => (some (i, c, cs.2.rotated), some s)
        | some bsc => if s < bsc then (some (i, c, cs.2.rotated), some s) else (best, bestScore)
    let res := shelfBestLoop sheet st rest (i + 1) bb.1 bb.2
    (res.1, cs.2 :: res.2)

/-- `ShelfLayout.get_best` (src/layouts.py:84-122). -/
def shelfGetBest (sheet : Sheet) (st : ShelfState) (sprites : List Rect) :
    Option (Nat × ShelfChoice × Bool) × List Rect :=
  shelfBestLoop sheet st sprites 0 none none

/-- `ShelfLayout.place` (src/layouts.py:124-135): re-rotate the sprite if
its flag disagrees with the requested rotation, place it on the chosen
shelf, raise the layout `size`, and register a fresh shelf.  Always returns
`true`; `sheet.check` is never consulted. -/
def shelfPlace (st : ShelfState) (spr : Rect) (choice : ShelfChoice) (rot : Bool) :
    ShelfState × Rect × Bool :=
  let spr1 := if spr.rotated != rot then spr.rotate else spr
  match choice with
  | ShelfChoice.existing idx =>
    let shelf := st.shelves.getD idx { start := 0 }
    let pr := shelf.place spr1
    ({ size := Nat.max st.size (pr.1.start + pr.1.max),
       shelves := st.shelves.set idx pr.1 }, pr.2, true)
  | ShelfChoice.fresh s =>
    let pr := Shelf.place { start := s } spr1
    ({ size := Nat.max st.size (pr.1.start + pr.1.max),
       shelves := st.shelves ++ [pr.1] }, pr.2, true)

/-- `ShelfLayout` as used by the shared driver. -/
def shelfAdd (sheet : Sheet) (st : ShelfState) (sprites : List Rect) :
    List Rect × List Rect × ShelfState × Nat :=
  layoutAdd (shelfGetBest sheet) (fun st spr pos rot => shelfPlace st spr pos rot) st sprites

/-! ## StackLayout (src/layouts.py:139-206)

`StackLayout` does not use the shared driver: it overrides `add` with a
single-sprite method returning a boolean.  Its rotation test on line 175
reads the undefined name `sh` (`h <= sh.max`); whenever that conjunct is
reached — rotation allowed, `h > w`, and at least one stack exists so the
loop body runs — Python raises a `NameError`, modelled with `Except`. -/

/-- `StackLayout.Stack` (src/layouts.py:144-149). -/
structure Stack where
  start : Nat
  size : Nat := 0
  max : Nat := 0
  rects : List Rect := []
deriving DecidableEq, Repr

/-- `Stack.place` (src/layouts.py:151-158). -/
def Stack.place (s : Stack) (r : Rect) : Stack × Rect :=
  let r1 := { r with x := s.start, y := s.size }
  ({ s with rects := s.rects ++ [r1], size := s.size + r1.h,
            max := if s.max < r1.w then r1.w else s.max }, r1)

/-- `StackLayout` state (src/layouts.py:160-162).  The source field is
named `stacks`; that identifier is reserved by Mathlib, hence
`stackList`. -/
structure StackState where
  size : Nat := 0
  stackList : List Stack := []
deriving DecidableEq, Repr

/-- The stack-scoring loop of `StackLayout.add` (src/layouts.py:174-185),
reached only when the rotation conjunct short-circuits to false (otherwise
the undefined `sh` raises): `tw, th = w, h` on every iteration. -/
def stackScan (sheet : Sheet) : List Stack → Nat → Nat → Nat → Option (Nat × Int) →
    Option (Nat × Int)
  | [], _, _, _, best => best
  | stk :: rest, j, w, h, best =>
    let best1 :=
      if decide (stk.size + h ≤ sheet.h) && decide (w ≤ stk.max) then
        let score : Int := ((sheet.h : Int) - stk.size - h) * stk.max
                           + (h : Int) * ((stk.max : Int) - w)
        match best with
        | none => some (j, score)
        | some (k, s) => if score < s then some (j, score) else some (k, s)
      else best
    stackScan sheet rest (j + 1) w h best1

/-- `StackLayout.add` (src/layouts.py:164-206).  `Except.error` models the
`NameError` raised by the undefined name `sh` on line 175. -/
def stackAdd (sheet : Sheet) (st : StackState) (spr : Rect) :
    Except String (StackState × Rect × Bool) :=
  let w := spr.w
  let h := spr.h
  if decide (sheet.w < w) || decide (sheet.h < h) then Except.ok (st, spr, false)
  else if !st.stackList.isEmpty && sheet.rotate && decide (w < h) then
    Except.error "NameError: sh is not defined"
  else
    match stackScan sheet st.stackList 0 w h none with
    | some (idx, _) =>
      let stk := st.stackList.getD idx { start := 0 }
      let pr := stk.place spr
      Except.ok ({ size := Nat.max st.size (pr.1.start + pr.1.max),
                   stackList := st.stackList.set idx pr.1 }, pr.2, true)
    | none =>
      if !st.stackList.isEmpty && decide (sheet.w < st.size + w) then Except.ok (st, spr, false)
      else
        let pr := Stack.place { start := st.size } spr
        Except.ok ({ size := Nat.max st.size (pr.1.start + pr.1.max),
                     stackList := st.stackList ++ [pr.1] }, pr.2, true)

/-! ## MaxRectsLayout (src/layouts.py:216-336) -/

/-- `MaxRectsLayout` state (src/layouts.py:223-228).  `used_rects` is
initialised empty by `clear` and never written anywhere else in the
class. -/
structure MRState where
  used_rects : List Rect := []
  free_rects : List Rect := []
deriving DecidableEq, Repr

/-- `MaxRectsLayout.clear` (src/layouts.py:223-228). -/
def mrClear (sheet : Sheet) : MRState :=
  { used_rects := [], free_rects := [{ w := sheet.w, h := sheet.h }] }

/-- The free-rect loop of `MaxRectsLayout.search` (src/layouts.py:230-253):
the accumulator is the running best `(position, bssf, blsf)` and the
`rotate` flag.  As in the source, a later un-rotated winner does not reset
`rotate`. -/
def mrSearchLoop (sheet : Sheet) (r : Rect) :
    List Rect → Option (Rect × Int × Int) → Bool → Option (Rect × Int × Int) × Bool
  | [], best, rotate => (best, rotate)
  | free :: rest, best, rotate =>
    let acc1 : Option (Rect × Int × Int) × Bool :=
      if decide (r.w ≤ free.w) && decide (r.h ≤ free.h) then
        let dx : Int := (free.w : Int) - r.w
        let dy : Int := (free.h : Int) - r.h
        let ssf := min dx dy
        let lsf := max dx dy
        match best with
        | none => (some ({ w := r.w, h := r.h, x := free.x, y := free.y }, ssf, lsf), rotate)
        | some (b, bssf, blsf) =>
          if ssf < bssf || (ssf = bssf ∧ lsf < blsf) then
            (some ({ w := r.w, h := r.h, x := free.x, y := free.y }, ssf, lsf), rotate)
          else (some (b, bssf, blsf), rotate)
      else (best, rotate)
    let acc2 : Option (Rect × Int × Int) × Bool :=
      if sheet.rotate && decide (r.w ≤ free.h) && decide (r.h ≤ free.w) then
        let dx : Int := (free.w : Int) - r.h
        let dy : Int := (free.h : Int) - r.w
        let ssf := min dx dy
        let lsf := max dx dy
        match acc1.1 with
        | none => (some ({ w := r.h, h := r.w, x := free.x, y := free.y }, ssf, lsf), true)
        | some (b, bssf, blsf) =>
          if ssf < bssf || (ssf = bssf ∧ lsf < blsf) then
            (some ({ w := r.h, h := r.w, x := free.x, y := free.y }, ssf, lsf), true)
          else (some (b, bssf, blsf), acc1.2)
      else acc1
    mrSearchLoop sheet r rest acc2.1 acc2.2

/-- `MaxRectsLayout.search` (src/layouts.py:230-253). -/
def mrSearch (sheet : Sheet) (free : List Rect) (r : Rect) :
    Option (Rect × Int × Int) × Bool :=
  mrSearchLoop sheet r free none false

/-- The sprite loop of `MaxRectsLayout.get_best` (src/layouts.py:290-313):
tracks the best `(i, position, rotated)` under the lexicographic
`(bssf, blsf)` score, and rebuilds the sprite list with the in-place
rotation of line 305 applied. -/
def mrBestLoop (sheet : Sheet) (st : MRState) :
    List Rect → Nat → Option (Nat × Rect × Bool) → Option (Int × Int) →
    Option (Nat × Rect × Bool) × List Rect
  | [], _, best, _ => (best, [])
  | spr :: rest, i, best, bestScore =>
    let sr := mrSearch sheet st.free_rects spr
    let step : Option (Nat × Rect × Bool) × Option (Int × Int) × Rect :=
      match sr.1 with
      | none => (best, bestScore, spr)
      | some (pos, bssf, blsf) =>
        if !sheet.check pos then (best, bestScore, spr)
        else if sr.2 && !sheet.rotate then (best, bestScore, spr)
        else
          let spr1 := if sr.2 then spr.rotate else spr
          match bestScore with
          | none => (some (i, pos, spr1.rotated), some (bssf, blsf), spr1)
          | some (ba, bb) =>
            if bssf < ba ∨ (bssf = ba ∧ blsf < bb) then
              (some (i, pos, spr1.rotated), some (bssf, blsf), spr1)
            else (best, bestScore, spr1)
    let res := mrBestLoop sheet st rest (i + 1) step.1 step.2.1
    (res.1, step.2.2 :: res.2)

/-- `MaxRectsLayout.get_best` (src/layouts.py:290-313). -/
def mrGetBest (sheet : Sheet) (st : MRState) (sprites : List Rect) :
    Option (Nat × Rect × Bool) × List Rect :=
  mrBestLoop sheet st sprites 0 none none

/-- The four slivers `MaxRectsLayout.split` (src/layouts.py:255-288) appends
for an intersecting free rect, in source order top, bottom, left, right
(`sprite` is the `rect` parameter of the source). -/
def splitRect (sprite free : Rect) : List Rect :=
  (if decide (sprite.x < free.x + free.w) && decide (free.x < sprite.x + sprite.w) then
     (if decide (free.y < sprite.y) && decide (sprite.y < free.y + free.h) then
        [{ free with h := sprite.y - free.y }] else []) ++
     (if decide (sprite.y + sprite.h < free.y + free.h) then
        [{ free with y := sprite.y + sprite.h,
                     h := free.y + free.h - (sprite.y + sprite.h) }] else [])
   else []) ++
  (if decide (sprite.y < free.y + free.h) && decide (free.y < sprite.y + sprite.h) then
     (if decide (free.x < sprite.x) && decide (sprite.x < free.x + free.w) then
        [{ free with w := sprite.x - free.x }] else []) ++
     (if decide (sprite.x + sprite.w < free.x + free.w) then
        [{ free with x := sprite.x + sprite.w,
                     w := free.x + free.w - (sprite.x + sprite.w) }] else [])
   else [])

/-- The reversed-enumerate split loop of `MaxRectsLayout.place`
(src/layouts.py:325-327): walking the indices downward over a snapshot of
the list, each intersecting free rect is popped and its slivers are
appended at the end, so the surviving rects keep their relative order and
the sliver blocks follow in reverse original order.  (`split` proceeds
exactly when the two rects strictly overlap, which is the `intersects`
predicate, so the pop condition is `intersects` alone.) -/
def splitAll (free : List Rect) (sprite : Rect) : List Rect :=
  free.filter (fun f => !(f.intersects sprite)) ++
  ((free.filter (fun f => f.intersects sprite)).reverse.map (splitRect sprite)).flatten

/-- The prune step of `MaxRectsLayout.place` (src/layouts.py:330-334): keep
`free2` unless some other entry of the list contains it.  Python's
`free1 != free2` is object identity (spec §9: "identity inequality"),
modelled by comparing list positions, so two value-identical entries each
see the other as different and remove each other. -/
def prune (free : List Rect) : List Rect :=
  (free.enum.filter (fun p =>
    free.enum.all (fun q => decide (q.1 = p.1) || !(q.2.contains p.2)))).map Prod.snd

/-- `MaxRectsLayout.place` (src/layouts.py:315-336): assign the position,
validate with `sheet.check`, re-rotate on flag mismatch, split the
intersecting free rects and prune.  `used_rects` is not touched. -/
def mrPlace (sheet : Sheet) (st : MRState) (spr : Rect) (position : Rect) (rot : Bool) :
    MRState × Rect × Bool :=
  let spr1 := { spr with x := position.x, y := position.y }
  if !sheet.check spr1 then (st, spr1, false)
  else
    let spr2 := if spr1.rotated != rot then spr1.rotate else spr1
    ({ st with free_rects := prune (splitAll st.free_rects spr2) }, spr2, true)

/-- `MaxRectsLayout` as used by the shared driver. -/
def mrAdd (sheet : Sheet) (st : MRState) (sprites : List Rect) :
    List Rect × List Rect × MRState × Nat :=
  layoutAdd (mrGetBest sheet) (mrPlace sheet) st sprites

/-! ## Concrete scenarios -/

/-- A sheet with the default bounds-only `check`. -/
def mkSheet (mw mh : Nat) (r : Bool) : Sheet :=
  ⟨mw, mh, r, boundsCheck mw mh⟩

/-- An input sprite: unplaced, not rotated, with identity tag `sid`. -/
def mkSpr (w h sid : Nat) : Rect :=
  { w := w, h := h, sid := sid }

/-- C1 failing run, first call: Shelf on a 10×10 bin with rotation allowed,
`add` a 4×4 sprite (creates shelf 0 at `y = 0` with `max = 4`). -/
def c1run1 : List Rect × List Rect × ShelfState × Nat :=
  shelfAdd (mkSheet 10 10 true) {} [mkSpr 4 4 0]

/-- C1 failing run, second call: `add` a 6×6 sprite (creates shelf 1 at
`y = 4` with `max = 6`). -/
def c1run2 : List Rect × List Rect × ShelfState × Nat :=
  shelfAdd (mkSheet 10 10 true) c1run1.2.2.1 [mkSpr 6 6 1]

/-- C1 failing run, third call: `add` a 6×3 sprite.  Scoring against
shelf 1 rotates it in place to 3×6; the recorded best is shelf 0, scored
before the rotation, so the sprite is committed to shelf 0 in its rotated
orientation, growing shelf 0 past the baseline of shelf 1. -/
def c1run3 : List Rect × List Rect × ShelfState × Nat :=
  shelfAdd (mkSheet 10 10 true) c1run2.2.2.1 [mkSpr 6 3 2]

/-- C2 failing run: Shelf on a 5×10 bin with rotation allowed, `add` a 3×8
sprite.  The oversize filter (src/layouts.py:91) passes it un-rotated; the
new-shelf branch then rotates it to 8×3 (src/layouts.py:108-109) without
re-checking the width, and it is placed at (0,0) with width 8 > 5. -/
def c2run : List Rect × List Rect × ShelfState × Nat :=
  shelfAdd (mkSheet 5 10 true) {} [mkSpr 3 8 0]

/-- C3 counterexample run: Shelf on a 10×10 bin without rotation,
`add` of [(3×3), (9×1)].  The 9×1 sprite scores better and is placed first. -/
def c3run : List Rect × List Rect × ShelfState × Nat :=
  shelfAdd (mkSheet 10 10 false) {} [mkSpr 3 3 0, mkSpr 9 1 1]

/-- C4 run: MaxRects (scenario S2), bin 10×10, rotation off, sprites
[(6×6), (4×4), (4×6), (6×4)] in one `add` call. -/
def c4run : List Rect × List Rect × MRState × Nat :=
  mrAdd (mkSheet 10 10 false) (mrClear (mkSheet 10 10 false))
    [mkSpr 6 6 0, mkSpr 4 4 1, mkSpr 4 6 2, mkSpr 6 4 3]

/-- C6 failing run, first call: Stack on a 10×10 bin with rotation allowed,
`add` a 3×3 sprite (succeeds: the stack list is still empty, so the loop
body that reads the undefined `sh` is never entered). -/
def c6run1 : Except String (StackState × Rect × Bool) :=
  stackAdd (mkSheet 10 10 true) {} (mkSpr 3 3 0)

/-- The stack state after the first C6 call. -/
def c6state : StackState :=
  match c6run1 with
  | Except.ok r => r.1
  | Except.error _ => {}

/-- C6 failing run, second call: `add` a 2×5 sprite.  Rotation is allowed
and `h > w`, so the first loop iteration evaluates `h <= sh.max` with the
undefined name `sh` (src/layouts.py:175) and raises `NameError`. -/
def c6run2 : Except String (StackState × Rect × Bool) :=
  stackAdd (mkSheet 10 10 true) c6state (mkSpr 2 5 1)

/-- C7 counterexample run: MaxRects (scenario S6), bin 10×10, one 5×5
sprite added and placed at (0,0). -/
def c7run : List Rect × List Rect × MRState × Nat :=
  mrAdd (mkSheet 10 10 false) (mrClear (mkSheet 10 10 false)) [mkSpr 5 5 0]

/-- C9 counterexample run: Shelf on a 10×4 bin with rotation allowed,
`add` of the single 4×10 sprite (scenario S3). -/
def c9run : List Rect × List Rect × ShelfState × Nat :=
  shelfAdd (mkSheet 10 4 true) {} [mkSpr 4 10 0]

/-- C9 MaxRects run for the amended claim: same bin and sprite under
MaxRects. -/
def c9mrRun : List Rect × List Rect × MRState × Nat :=
  mrAdd (mkSheet 10 4 true) (mrClear (mkSheet 10 4 true)) [mkSpr 4 10 0]

/-! ## Lemmas -/

/-- `rotate` preserves the identity tag. -/
@[simp] theorem Rect.sid_rotate (r : Rect) : r.rotate.sid = r.sid := rfl

theorem addAux_count_le {σ π : Type}
    (gB : σ → List Rect → Option (Nat × π × Bool) × List Rect)
    (pF : σ → Rect → π → Bool → σ × Rect × Bool) :
    ∀ (fuel : Nat) (st : σ) (remain : List Rect),
      (addAux gB pF fuel st remain).2.2.2 ≤ fuel := by
  intro fuel
  induction fuel with
  | zero => intro st remain; simp [addAux]
  | succ n ih =>
    intro st remain
    simp only [addAux]
    split
    · simp
    · split
      · simp
      · split
        · simp
        · split
          · exact Nat.succ_le_succ (ih _ _)
          · simp

/-- An element recovered at its index, consed onto the erasure, is a
permutation of the original list. -/
theorem get_cons_eraseIdx_perm {α : Type} :
    ∀ (l : List α) (i : Nat) (a : α), l.get? i = some a →
      (a :: l.eraseIdx i).Perm l := by
  intro l
  induction l with
  | nil => intro i a h; simp [List.get?] at h
  | cons b t ih =>
    intro i a h
    cases i with
    | zero =>
      simp only [List.get?] at h
      cases h
      simp [List.eraseIdx]
    | succ j =>
      simp only [List.get?] at h
      simp only [List.eraseIdx]
      exact ((List.Perm.swap b a _).trans (List.Perm.cons b (ih j a h)))

theorem eraseIdx_sublist' {α : Type} :
    ∀ (l : List α) (i : Nat), (l.eraseIdx i).Sublist l := by
  intro l
  induction l with
  | nil => intro i; simp [List.eraseIdx]
  | cons b t ih =>
    intro i
    cases i with
    | zero => exact List.sublist_cons_self b t
    | succ j => exact List.Sublist.cons₂ b (ih j)

/-- Setting an index to an element with the same image under `f` leaves the
mapped list unchanged. -/
theorem map_set_eq_of_get {α β : Type} (f : α → β) :
    ∀ (l : List α) (i : Nat) (a b : α), l.get? i = some b → f a = f b →
      (l.set i a).map f = l.map f := by
  intro l
  induction l with
  | nil => intro i a b h _; simp [List.get?] at h
  | cons c t ih =>
    intro i a b h hf
    cases i with
    | zero =>
      simp only [List.get?] at h
      cases h
      simp [List.set, hf]
    | succ j =>
      simp only [List.get?] at h
      simp [List.set, ih j a b h hf]

/-- Driver invariant: the identity tags of `placed ++ remain` form the input
multiset, provided `get_best` only mutates sprites in place (preserving the
tag sequence) and `place` preserves the tag of the sprite it mutates. -/
theorem addAux_sid_perm {σ π : Type}
    (gB : σ → List Rect → Option (Nat × π × Bool) × List Rect)
    (pF : σ → Rect → π → Bool → σ × Rect × Bool)
    (hg : ∀ st l, ((gB st l).2).map Rect.sid = l.map Rect.sid)
    (hp : ∀ st spr pos rot, ((pF st spr pos rot).2.1).sid = spr.sid) :
    ∀ (fuel : Nat) (st : σ) (remain : List Rect),
      (((addAux gB pF fuel st remain).1 ++ (addAux gB pF fuel st remain).2.1).map
        Rect.sid).Perm (remain.map Rect.sid) := by
  intro fuel
  induction fuel with
  | zero => intro st remain; simp [addAux]
  | succ n ih =>
    intro st remain
    simp only [addAux]
    split
    · simp
    · split
      next remain1 hgb =>
        have hms : remain1.map Rect.sid = remain.map Rect.sid := by
          have h := hg st remain; rw [hgb] at h; exact h
        rw [← hms]; simp
      next i pos rot remain1 hgb =>
        have hms : remain1.map Rect.sid = remain.map Rect.sid := by
          have h := hg st remain; rw [hgb] at h; exact h
        rcases hget : remain1.get? i with _ | spr
        · rw [← hms]; simp
        · split
          next heq => simp at heq
          next spr2 heq =>
            injection heq with heq2
            subst heq2
            split
            · have hsid : ((pF st spr pos rot).2.1).sid = spr.sid := hp st spr pos rot
              have hperm := ih (pF st spr pos rot).1 (remain1.eraseIdx i)
              have hcore : ((spr :: remain1.eraseIdx i).map Rect.sid).Perm
                  (remain1.map Rect.sid) :=
                (get_cons_eraseIdx_perm remain1 i spr hget).map Rect.sid
              rw [← hms]
              simp only [List.map_cons, List.cons_append] at hcore ⊢
              rw [hsid]
              exact (hperm.cons spr.sid).trans hcore
            · have hset : (remain1.set i (pF st spr pos rot).2.1).map Rect.sid
                  = remain1.map Rect.sid :=
                map_set_eq_of_get Rect.sid remain1 i _ spr hget (hp st spr pos rot)
              rw [← hms, ← hset]; simp

/-- Driver invariant: the returned `remain` is an in-order sublist of the
input, at the level of identity tags. -/
theorem addAux_sid_sublist {σ π : Type}
    (gB : σ → List Rect → Option (Nat × π × Bool) × List Rect)
    (pF : σ → Rect → π → Bool → σ × Rect × Bool)
    (hg : ∀ st l, ((gB st l).2).map Rect.sid = l.map Rect.sid)
    (hp : ∀ st spr pos rot, ((pF st spr pos rot).2.1).sid = spr.sid) :
    ∀ (fuel : Nat) (st : σ) (remain : List Rect),
      (((addAux gB pF fuel st remain).2.1).map Rect.sid).Sublist (remain.map Rect.sid) := by
  intro fuel
  induction fuel with
  | zero => intro st remain; simp [addAux]
  | succ n ih =>
    intro st remain
    simp only [addAux]
    split
    · simp
    · split
      next remain1 hgb =>
        have hms : remain1.map Rect.sid = remain.map Rect.sid := by
          have h := hg st remain; rw [hgb] at h; exact h
        rw [← hms]
      next i pos rot remain1 hgb =>
        have hms : remain1.map Rect.sid = remain.map Rect.sid := by
          have h := hg st remain; rw [hgb] at h; exact h
        rcases hget : remain1.get? i with _ | spr
        · rw [← hms]
        · split
          next heq => simp at heq
          next spr2 heq =>
            injection heq with heq2
            subst heq2
            split
            · have h1 := ih (pF st spr pos rot).1 (remain1.eraseIdx i)
              have h2 : ((remain1.eraseIdx i).map Rect.sid).Sublist (remain1.map Rect.sid) :=
                (eraseIdx_sublist' remain1 i).map Rect.sid
              rw [← hms]
              exact h1.trans h2
            · have hset : (remain1.set i (pF st spr pos rot).2.1).map Rect.sid
                  = remain1.map Rect.sid :=
                map_set_eq_of_get Rect.sid remain1 i _ spr hget (hp st spr pos rot)
              rw [← hms, ← hset]

/-! ### Identity-tag preservation for the Shelf layout -/

theorem shelfScan_sid (sheet : Sheet) :
    ∀ (shelves : List Shelf) (j : Nat) (spr : Rect) (bs : Option (ShelfChoice × Int)),
      ((shelfScan sheet shelves j spr bs).1).sid = spr.sid := by
  intro shelves
  induction shelves with
  | nil => intro j spr bs; rfl
  | cons shelf rest ih =>
    intro j spr bs
    simp only [shelfScan]
    rw [ih]
    split <;> simp

theorem shelfCandidate_sid (sheet : Sheet) (st : ShelfState) (spr : Rect) :
    ((shelfCandidate sheet st spr).2).sid = spr.sid := by
  simp only [shelfCandidate]
  split
  · rfl
  · split
    · exact shelfScan_sid sheet st.shelves 0 spr none
    · split
      · split <;> simp [shelfScan_sid sheet st.shelves 0 spr none]
      · split <;> simp [shelfScan_sid sheet st.shelves 0 spr none]

theorem shelfBestLoop_sid (sheet : Sheet) (st : ShelfState) :
    ∀ (sprites : List Rect) (i : Nat) (best : Option (Nat × ShelfChoice × Bool))
      (bsc : Option Int),
      ((shelfBestLoop sheet st sprites i best bsc).2).map Rect.sid = sprites.map Rect.sid := by
  intro sprites
  induction sprites with
  | nil => intro i best bsc; rfl
  | cons spr rest ih =>
    intro i best bsc
    simp only [shelfBestLoop, List.map_cons]
    rw [ih, shelfCandidate_sid]

theorem shelfGetBest_sid (sheet : Sheet) (st : ShelfState) (sprites : List Rect) :
    ((shelfGetBest sheet st sprites).2).map Rect.sid = sprites.map Rect.sid :=
  shelfBestLoop_sid sheet st sprites 0 none none

theorem shelfPlace_sid (st : ShelfState) (spr : Rect) (choice : ShelfChoice) (rot : Bool) :
    ((shelfPlace st spr choice rot).2.1).sid = spr.sid := by
  cases choice <;> (unfold shelfPlace Shelf.place; split <;> rfl)

/-! ### Identity-tag preservation for the MaxRects layout -/

theorem mrBestLoop_sid (sheet : Sheet) (st : MRState) :
    ∀ (sprites : List Rect) (i : Nat) (best : Option (Nat × Rect × Bool))
      (bsc : Option (Int × Int)),
      ((mrBestLoop sheet st sprites i best bsc).2).map Rect.sid = sprites.map Rect.sid := by
  intro sprites
  induction sprites with
  | nil => intro i best bsc; rfl
  | cons spr rest ih =>
    intro i best bsc
    simp only [mrBestLoop, List.map_cons]
    rw [ih]
    congr 1
    split
    · rfl
    · split
      · rfl
      · split
        · rfl
        · split
          · split <;> simp
          · split
            · split <;> simp
            · split <;> simp

theorem mrGetBest_sid (sheet : Sheet) (st : MRState) (sprites : List Rect) :
    ((mrGetBest sheet st sprites).2).map Rect.sid = sprites.map Rect.sid :=
  mrBestLoop_sid sheet st sprites 0 none none

theorem mrPlace_sid (sheet : Sheet) (st : MRState) (spr position : Rect) (rot : Bool) :
    ((mrPlace sheet st spr position rot).2.1).sid = spr.sid := by
  simp only [mrPlace]
  split
  · rfl
  · split <;> rfl

/-! ### Geometry of the MaxRects split and prune -/

theorem intersects_eq_true_iff (a b : Rect) :
    a.intersects b = true ↔
      (a.x < b.x + b.w ∧ b.x < a.x + a.w ∧ a.y < b.y + b.h ∧ b.y < a.y + a.h) := by
  simp [Rect.intersects, and_assoc]

/-- Every sliver emitted by `split` lies strictly outside the placed
sprite. -/
theorem mem_splitRect_not_intersects (s g f : Rect) (hf : f ∈ splitRect s g) :
    f.intersects s = false := by
  rw [Bool.eq_false_iff]
  intro hc
  rw [intersects_eq_true_iff] at hc
  unfold splitRect at hf
  rcases List.mem_append.1 hf with h | h
  · by_cases c1 : (decide (s.x < g.x + g.w) && decide (g.x < s.x + s.w)) = true
    · rw [if_pos c1] at h
      rcases List.mem_append.1 h with h1 | h1
      · by_cases c2 : (decide (g.y < s.y) && decide (s.y < g.y + g.h)) = true
        · rw [if_pos c2] at h1
          rw [List.mem_singleton] at h1
          subst h1
          simp only [Bool.and_eq_true, decide_eq_true_eq] at c2
          dsimp only at hc
          omega
        · rw [if_neg c2] at h1; simp at h1
      · by_cases c3 : decide (s.y + s.h < g.y + g.h) = true
        · rw [if_pos c3] at h1
          rw [List.mem_singleton] at h1
          subst h1
          dsimp only at hc
          omega
        · rw [if_neg c3] at h1; simp at h1
    · rw [if_neg c1] at h; simp at h
  · by_cases c1 : (decide (s.y < g.y + g.h) && decide (g.y < s.y + s.h)) = true
    · rw [if_pos c1] at h
      rcases List.mem_append.1 h with h1 | h1
      · by_cases c2 : (decide (g.x < s.x) && decide (s.x < g.x + g.w)) = true
        · rw [if_pos c2] at h1
          rw [List.mem_singleton] at h1
          subst h1
          simp only [Bool.and_eq_true, decide_eq_true_eq] at c2
          dsimp only at hc
          omega
        · rw [if_neg c2] at h1; simp at h1
      · by_cases c3 : decide (s.x + s.w < g.x + g.w) = true
        · rw [if_pos c3] at h1
          rw [List.mem_singleton] at h1
          subst h1
          dsimp only at hc
          omega
        · rw [if_neg c3] at h1; simp at h1
    · rw [if_neg c1] at h; simp at h

/-- After the split loop no surviving free rect intersects the placed
sprite: untouched rects were filtered on non-intersection, slivers avoid
the sprite by construction. -/
theorem mem_splitAll_not_intersects (F : List Rect) (s f : Rect) (hf : f ∈ splitAll F s) :
    f.intersects s = false := by
  unfold splitAll at hf
  rcases List.mem_append.1 hf with h | h
  · have h2 := List.of_mem_filter h
    simpa using h2
  · rw [List.mem_flatten] at h
    obtain ⟨L, hL, hfL⟩ := h
    rw [List.mem_map] at hL
    obtain ⟨g, _, rfl⟩ := hL
    exact mem_splitRect_not_intersects s g f hfL

/-- Pruning only removes entries. -/
theorem mem_prune (L : List Rect) (f : Rect) (hf : f ∈ prune L) : f ∈ L := by
  unfold prune at hf
  rw [List.mem_map] at hf
  obtain ⟨p, hp, rfl⟩ := hf
  have hpE : p ∈ L.enum := List.mem_of_mem_filter hp
  rcases p with ⟨i, a⟩
  have hpE2 : (i, a) ∈ List.enumFrom 0 L := hpE
  have h2 := List.mem_enumFrom hpE2
  obtain ⟨-, hlt, heq⟩ := h2
  simp only [Nat.sub_zero] at heq hlt
  rw [heq]
  exact List.getElem_mem _

theorem enumFrom_pairwise_fst_lt {α : Type} :
    ∀ (n : Nat) (l : List α), (List.enumFrom n l).Pairwise (fun p q => p.1 < q.1) := by
  intro n l
  induction l generalizing n with
  | nil => simp
  | cons a t ih =>
    rw [List.enumFrom_cons]
    refine List.Pairwise.cons ?_ (ih (n + 1))
    intro q hq
    have h := (List.mem_enumFrom hq).1
    omega

/-- The prune filter keeps an entry only when no other index contains it,
so no two survivors contain each other. -/
theorem prune_pairwise (L : List Rect) :
    (prune L).Pairwise (fun a b => a.contains b = false ∧ b.contains a = false) := by
  unfold prune
  rw [List.pairwise_map]
  have h0 : (L.enum).Pairwise (fun p q => p.1 < q.1) := enumFrom_pairwise_fst_lt 0 L
  have h1 : (List.filter
      (fun p => L.enum.all fun q => decide (q.1 = p.1) || !q.2.contains p.2)
      L.enum).Pairwise (fun p q => p.1 < q.1) :=
    List.Pairwise.sublist (List.filter_sublist _) h0
  refine List.Pairwise.imp_of_mem ?_ h1
  intro p q hp hq hlt
  have hpP := List.of_mem_filter hp
  have hqP := List.of_mem_filter hq
  have hpE : p ∈ L.enum := List.mem_of_mem_filter hp
  have hqE : q ∈ L.enum := List.mem_of_mem_filter hq
  rw [List.all_eq_true] at hpP hqP
  constructor
  · have hpq := hqP p hpE
    simp only [Bool.or_eq_true, decide_eq_true_eq, Bool.not_eq_true'] at hpq
    rcases hpq with h | h
    · omega
    · exact h
  · have hqp := hpP q hqE
    simp only [Bool.or_eq_true, decide_eq_true_eq, Bool.not_eq_true'] at hqp
    rcases hqp with h | h
    · omega
    · exact h

theorem contains_self (r : Rect) : r.contains r = true := by
  simp [Rect.contains]

/-- Two value-identical entries each contain the other and sit at distinct
indices, so the identity-based prune removes both. -/
theorem prune_duplicate_pair (r : Rect) : prune [r, r] = [] := by
  simp [prune, List.enum, List.enumFrom, List.filter, List.all, contains_self]

/-! ## The claims -/

/-- C1. The spec claims that for every layout strategy and every successful
run of `add` no two placed sprites overlap.  The code violates this: in the
Shelf runs `c1run1`/`c1run2`/`c1run3` (bin 10×10, rotation allowed, sprites
4×4 then 6×6 then 6×3, each placed successfully), the 6×6 sprite ends at
(0,4) and the third sprite is committed rotated as 3×6 at (4,0); the two
placed sprites intersect on the 2×2 region [4,6)×[4,6), so the intersection
area is positive.  The stale `rotated` flag captured by `get_best`
(src/layouts.py:119) after a scoring rotation on a later shelf
(src/layouts.py:97-98) is the slip. -/
theorem C1_shelf_overlap_code_bug :
    c1run1.2.1 = [] ∧ c1run2.2.1 = [] ∧ c1run3.2.1 = [] ∧
    c1run2.1 = [{ w := 6, h := 6, x := 0, y := 4, rotated := false, sid := 1 }] ∧
    c1run3.1 = [{ w := 3, h := 6, x := 4, y := 0, rotated := true, sid := 2 }] ∧
    Rect.intersects { w := 6, h := 6, x := 0, y := 4, rotated := false, sid := 1 }
      { w := 3, h := 6, x := 4, y := 0, rotated := true, sid := 2 } = true := by
  decide

/-- C2. The spec claims every placed sprite lies fully inside
`[0, maxW] × [0, maxH]`.  The code violates this: in the successful Shelf
run `c2run` (bin 5×10, rotation allowed, sprite 3×8) the sprite is placed
rotated as 8×3 at (0,0), and `x + w = 8 > maxW = 5` sticks out of the bin. -/
theorem C2_shelf_outside_bin_code_bug :
    c2run.1 = [{ w := 8, h := 3, x := 0, y := 0, rotated := true, sid := 0 }] ∧
    c2run.2.1 = [] ∧
    ¬(0 + 8 ≤ 5) := by
  decide

/-- C3 counterexample: the claim says `placed` preserves the input's
relative order.  In `c3run` both sprites are placed, but `placed` lists
sprite 1 (the 9×1) before sprite 0 (the 3×3): the identity tags come out as
`[1, 0]`, which is not a subsequence of the input order `[0, 1]`. -/
theorem C3_placed_order_counterexample :
    c3run.1.map Rect.sid = [1, 0] ∧ c3run.2.1 = [] ∧
    ¬ (c3run.1.map Rect.sid).Sublist [0, 1] := by
  decide

/-- C4 counterexample: the claim expects the 4×4 sprite to be chosen second
and placed at (6,0), then (4×6) at (6,4).  In the code's run the second
`get_best` scores the 4×6 sprite `(ssf, lsf) = (0, 4)` in the 4×10 right
column, beating the 4×4 sprite's `(0, 6)`, so (4×6) goes to (6,0) and the
4×4 sprite ends at (6,6), not (6,0). -/
theorem C4_s2_positions_counterexample :
    c4run.1.map (fun r => (r.sid, r.x, r.y)) = [(0, 0, 0), (2, 6, 0), (3, 0, 6), (1, 6, 6)] ∧
    c4run.1.all (fun r => !(decide (r.sid = 1) && decide (r.x = 6) && decide (r.y = 0))) = true := by
  decide

/-- C4 amended: all four sprites are placed and the bin is tiled
completely, but with placement order (6×6), (4×6), (6×4), (4×4) and the
4×4 at (6,6): the placements are (6×6)@(0,0), (4×6)@(6,0), (6×4)@(0,6),
(4×4)@(6,6); nothing remains, no two placed sprites intersect, every
placed sprite lies in the bin, and every cell of the 10×10 bin is covered. -/
theorem C4_amended_s2_all_placed_tiling :
    c4run.1 = [{ w := 6, h := 6, x := 0, y := 0, sid := 0 },
               { w := 4, h := 6, x := 6, y := 0, sid := 2 },
               { w := 6, h := 4, x := 0, y := 6, sid := 3 },
               { w := 4, h := 4, x := 6, y := 6, sid := 1 }] ∧
    c4run.2.1 = [] ∧
    (c4run.1.Pairwise fun a b => a.intersects b = false) ∧
    (∀ r ∈ c4run.1, r.x + r.w ≤ 10 ∧ r.y + r.h ≤ 10) ∧
    (∀ x ∈ List.range 10, ∀ y ∈ List.range 10,
      c4run.1.any (fun r =>
        decide (r.x ≤ x) && decide (x < r.x + r.w) &&
        decide (r.y ≤ y) && decide (y < r.y + r.h)) = true) := by
  decide

/-- C4 witness: the bounds conjunct of the amended S2 theorem applied to
the 4×4 sprite placed at (6,6). -/
theorem C4_amended_s2_all_placed_tiling_witness :
    ({ w := 4, h := 4, x := 6, y := 6, rotated := false, sid := 1 } : Rect).x
        + ({ w := 4, h := 4, x := 6, y := 6, rotated := false, sid := 1 } : Rect).w ≤ 10 ∧
    ({ w := 4, h := 4, x := 6, y := 6, rotated := false, sid := 1 } : Rect).y
        + ({ w := 4, h := 4, x := 6, y := 6, rotated := false, sid := 1 } : Rect).h ≤ 10 :=
  C4_amended_s2_all_placed_tiling.2.2.2.1
    { w := 4, h := 4, x := 6, y := 6, rotated := false, sid := 1 } (by decide)

/-- C6. The spec claims ordinary packing never raises for any layout,
Stack included.  The code violates this: with rotation allowed, adding a
taller-than-wide sprite once a stack exists reaches the undefined name
`sh` on src/layouts.py:175 and Python raises `NameError` — here, a 3×3
sprite then a 2×5 sprite on a 10×10 bin.  The spec itself flags the
undefined name (§9, "Open questions / suspected bugs in source"), so the
claim is the intent and the code is the slip. -/
theorem C6_stack_name_error_code_bug :
    (∃ st, c6run1 = Except.ok st) ∧
    c6run2 = Except.error "NameError: sh is not defined" := by
  exact ⟨⟨(c6state, { w := 3, h := 3, x := 0, y := 0, rotated := false, sid := 0 }, true), rfl⟩, rfl⟩

/-- C7 counterexample: the claim says that after every successful `place`,
`used_rects` records the sprites placed so far.  In `c7run` one sprite has
been successfully placed (at (0,0)), yet `used_rects` is still empty:
`clear` initialises it to `[]` (src/layouts.py:225) and no other line of
the class ever writes it. -/
theorem C7_used_rects_counterexample :
    c7run.1 = [{ w := 5, h := 5, x := 0, y := 0, sid := 0 }] ∧
    c7run.2.2.1.used_rects = [] := by
  decide

/-- C8 counterexample: the claim says that when two value-identical free
rects arise, pruning keeps exactly one copy.  The source prunes with the
identity-based `free1 != free2` (src/layouts.py:332, spec §9 "identity
inequality"), under which two value-identical entries each contain the
other and are each removed: pruning `[r, r]` yields `[]`, not one copy. -/
theorem C8_duplicate_prune_counterexample :
    prune [mkSpr 5 5 0, mkSpr 5 5 0] = [] ∧ [mkSpr 5 5 0, mkSpr 5 5 0].length = 2 := by
  decide

/-- C9 counterexample: the claim says a sprite is filtered into `remaining`
as too large only when it exceeds the bin in both orientations.  In the
Shelf run `c9run` the 4×10 sprite fits the 10×4 bin rotated (10 ≤ 10 and
4 ≤ 4), yet the size filter (src/layouts.py:91) tests only the current
orientation (`h = 10 > maxH = 4`), so nothing is placed and the sprite
stays in `remaining` un-rotated. -/
theorem C9_shelf_filter_counterexample :
    c9run.1 = [] ∧
    c9run.2.1 = [{ w := 4, h := 10, x := 0, y := 0, rotated := false, sid := 0 }] ∧
    (10 ≤ 10 ∧ 4 ≤ 4) := by
  decide

/-- C9 amended: under MaxRects, whose search tries both orientations when
rotation is allowed, scenario S3 holds — the 4×10 sprite is rotated to
10×4 and placed at (0,0) with nothing remaining; under Shelf the too-large
filter tests only the sprite's current orientation, so the same sprite is
left in `remaining` (see the counterexample). -/
theorem C9_amended_maxrects_rotation :
    c9mrRun.1 = [{ w := 10, h := 4, x := 0, y := 0, rotated := true, sid := 0 }] ∧
    c9mrRun.2.1 = [] := by
  decide
/-- C3 amended: for the layouts driven by the shared `Layout.add` (Shelf
and MaxRects), the identity tags of `placed ++ remaining` are a
permutation of the input tags (the multiset is preserved), and
`remaining` is an in-order sublist of the input (its relative order is
the input's); `placed` however is in placement (selection) order, which
may differ from the input order (see the counterexample). -/
theorem C3_amended_multiset_and_remaining_order :
    (∀ (sheet : Sheet) (st : ShelfState) (sprites : List Rect),
      (((shelfAdd sheet st sprites).1 ++ (shelfAdd sheet st sprites).2.1).map Rect.sid).Perm
        (sprites.map Rect.sid) ∧
      (((shelfAdd sheet st sprites).2.1).map Rect.sid).Sublist (sprites.map Rect.sid)) ∧
    (∀ (sheet : Sheet) (st : MRState) (sprites : List Rect),
      (((mrAdd sheet st sprites).1 ++ (mrAdd sheet st sprites).2.1).map Rect.sid).Perm
        (sprites.map Rect.sid) ∧
      (((mrAdd sheet st sprites).2.1).map Rect.sid).Sublist (sprites.map Rect.sid)) := by
  constructor
  · intro sheet st sprites
    exact ⟨addAux_sid_perm _ _ (shelfGetBest_sid sheet)
            (fun st spr pos rot => shelfPlace_sid st spr pos rot) sprites.length st sprites,
          addAux_sid_sublist _ _ (shelfGetBest_sid sheet)
            (fun st spr pos rot => shelfPlace_sid st spr pos rot) sprites.length st sprites⟩
  · intro sheet st sprites
    exact ⟨addAux_sid_perm _ _ (mrGetBest_sid sheet)
            (fun st spr pos rot => mrPlace_sid sheet st spr pos rot) sprites.length st sprites,
          addAux_sid_sublist _ _ (mrGetBest_sid sheet)
            (fun st spr pos rot => mrPlace_sid sheet st spr pos rot) sprites.length st sprites⟩

/-- C5 counterexample: the claim says `place` returns false whenever
`sheet.check` rejects the resulting placement.  `ShelfLayout.place`
(src/layouts.py:124-135) never consults `sheet.check`: placing an 8×3
sprite on a fresh shelf of the 5×10 sheet commits a placement that
`check` rejects (width 8 > 5), yet `place` returns true. -/
theorem C5_shelf_place_ignores_check_counterexample :
    (shelfPlace {} (mkSpr 8 3 0) (ShelfChoice.fresh 0) false).2.2 = true ∧
    (mkSheet 5 10 true).check ((shelfPlace {} (mkSpr 8 3 0) (ShelfChoice.fresh 0) false).2.1)
      = false := by
  decide

/-- C5 amended: `MaxRectsLayout.place` honours the contract — it returns
false and leaves the layout state untouched whenever `sheet.check`
rejects the positioned sprite, and returns true otherwise —
while `ShelfLayout.place` never consults `sheet.check` and always
returns true. -/
theorem C5_amended_place_contract :
    (∀ (sheet : Sheet) (st : MRState) (spr position : Rect) (rot : Bool),
      (sheet.check { spr with x := position.x, y := position.y } = false →
        mrPlace sheet st spr position rot
          = (st, { spr with x := position.x, y := position.y }, false)) ∧
      (sheet.check { spr with x := position.x, y := position.y } = true →
        (mrPlace sheet st spr position rot).2.2 = true)) ∧
    (∀ (st : ShelfState) (spr : Rect) (choice : ShelfChoice) (rot : Bool),
      (shelfPlace st spr choice rot).2.2 = true) := by
  refine ⟨fun sheet st spr position rot => ⟨fun h => ?_, fun h => ?_⟩,
          fun st spr choice rot => ?_⟩
  · simp [mrPlace, h]
  · simp [mrPlace, h]
  · cases choice <;> rfl

/-- C5 witness: a 6×1 sprite positioned at (0,0) on a 5×5 sheet fails the
bounds check, and `MaxRectsLayout.place` indeed refuses it and leaves the
state unchanged. -/
theorem C5_amended_place_contract_witness :
    mrPlace (mkSheet 5 5 false) { used_rects := [], free_rects := [{ w := 5, h := 5 }] }
        (mkSpr 6 1 0) { w := 6, h := 1 } false
      = ({ used_rects := [], free_rects := [{ w := 5, h := 5 }] },
         { w := 6, h := 1, x := 0, y := 0, rotated := false, sid := 0 }, false) :=
  (C5_amended_place_contract.1 (mkSheet 5 5 false)
    { used_rects := [], free_rects := [{ w := 5, h := 5 }] }
    (mkSpr 6 1 0) { w := 6, h := 1 } false).1 (by decide)

/-- C7 amended: `used_rects` is never updated by `place` (so it does not
record the placed sprites — see the counterexample), and after every
successful `place` no free rect overlaps the sprite just placed. -/
theorem C7_amended_used_rects_and_free_disjoint :
    ∀ (sheet : Sheet) (st : MRState) (spr position : Rect) (rot : Bool) (st2 : MRState)
      (spr2 : Rect), mrPlace sheet st spr position rot = (st2, spr2, true) →
      st2.used_rects = st.used_rects ∧
      ∀ f ∈ st2.free_rects, f.intersects spr2 = false := by
  intro sheet st spr position rot st2 spr2 h
  simp only [mrPlace] at h
  split at h
  · simp at h
  · simp only [Prod.mk.injEq] at h
    obtain ⟨h1, h2, -⟩ := h
    subst h1
    subst h2
    refine ⟨rfl, fun f hf => ?_⟩
    exact mem_splitAll_not_intersects _ _ _ (mem_prune _ _ hf)

/-- C7 witness: placing a 6×4 sprite at (0,0) on the empty 10×10 MaxRects
layout leaves `used_rects` empty and a free list whose two rects avoid
the sprite. -/
theorem C7_amended_used_rects_and_free_disjoint_witness :
    ({ used_rects := [],
       free_rects := [{ w := 10, h := 6, x := 0, y := 4 },
                      { w := 4, h := 10, x := 6, y := 0 }] } : MRState).used_rects
      = (mrClear (mkSheet 10 10 false)).used_rects ∧
    ∀ f ∈ ({ used_rects := [],
             free_rects := [{ w := 10, h := 6, x := 0, y := 4 },
                            { w := 4, h := 10, x := 6, y := 0 }] } : MRState).free_rects,
      f.intersects { w := 6, h := 4, x := 0, y := 0, rotated := false, sid := 0 } = false :=
  C7_amended_used_rects_and_free_disjoint (mkSheet 10 10 false) (mrClear (mkSheet 10 10 false))
    (mkSpr 6 4 0) { w := 6, h := 4 } false
    { used_rects := [],
      free_rects := [{ w := 10, h := 6, x := 0, y := 4 }, { w := 4, h := 10, x := 6, y := 0 }] }
    { w := 6, h := 4, x := 0, y := 0, rotated := false, sid := 0 } (by decide)

/-- C8 amended: after every successful `place` no free rect is fully
contained in another (the prune filter tests every entry against the whole
pre-prune list, so no containment survives); but when two value-identical
free rects are present before pruning, the identity-based `free1 != free2`
comparison removes both copies, not exactly one. -/
theorem C8_amended_prune_invariant :
    (∀ (sheet : Sheet) (st : MRState) (spr position : Rect) (rot : Bool) (st2 : MRState)
       (spr2 : Rect), mrPlace sheet st spr position rot = (st2, spr2, true) →
       st2.free_rects.Pairwise (fun a b => a.contains b = false ∧ b.contains a = false)) ∧
    (∀ r : Rect, prune [r, r] = []) := by
  constructor
  · intro sheet st spr position rot st2 spr2 h
    simp only [mrPlace] at h
    split at h
    · simp at h
    · simp only [Prod.mk.injEq] at h
      obtain ⟨h1, -, -⟩ := h
      subst h1
      exact prune_pairwise _
  · exact prune_duplicate_pair

/-- C8 witness: the free list after placing 5×5 at (0,0) in the 10×10 bin
(scenario S6) is containment-free in both directions. -/
theorem C8_amended_prune_invariant_witness :
    ([({ w := 10, h := 5, x := 0, y := 5 } : Rect),
      { w := 5, h := 10, x := 5, y := 0 }]).Pairwise
      (fun a b => a.contains b = false ∧ b.contains a = false) :=
  C8_amended_prune_invariant.1 (mkSheet 10 10 false) (mrClear (mkSheet 10 10 false))
    (mkSpr 5 5 0) { w := 5, h := 5 } false
    { used_rects := [],
      free_rects := [{ w := 10, h := 5, x := 0, y := 5 }, { w := 5, h := 10, x := 5, y := 0 }] }
    { w := 5, h := 5, x := 0, y := 0, rotated := false, sid := 0 } (by decide)

/-- C10. The shared driver `Layout.add` terminates on every finite input:
each loop iteration either pops exactly one sprite from the working list
or exits, so the number of loop iterations is at most the length of the
input (the embedding runs the loop on exactly that much fuel, and the
returned iteration count never reaches it). -/
theorem C10_driver_iterations_le_input_length {σ π : Type}
    (getBest : σ → List Rect → Option (Nat × π × Bool) × List Rect)
    (placeF : σ → Rect → π → Bool → σ × Rect × Bool) (st : σ) (sprites : List Rect) :
    (layoutAdd getBest placeF st sprites).2.2.2 ≤ sprites.length :=
  addAux_count_le getBest placeF sprites.length st sprites


end TexPack
